import Mathlib

/-!
Verification of the collision engine (`src/backend/collision_engine.py`).

The engine is pure arithmetic over IEEE doubles; we embed it shallowly over
the rationals `ℚ`, with Python `raise ValueError` modelled as `Except` with a
dedicated error type distinguishing the two validation failures (invalid mass
versus invalid restitution), matching the two distinct error messages in the
source.
-/

namespace CollisionEngine

/-- Embedding of the Python dataclass `ParticleState`. -/
structure ParticleState where
  mass : ℚ
  velocity : ℚ
  momentum : ℚ
  kinetic_energy : ℚ
deriving Repr, DecidableEq

/-- Embedding of the Python dataclass `CollisionResult`. -/
structure CollisionResult where
  particle1_initial : ParticleState
  particle2_initial : ParticleState
  particle1_final : ParticleState
  particle2_final : ParticleState
  total_momentum_initial : ℚ
  total_momentum_final : ℚ
  total_kinetic_energy_initial : ℚ
  total_kinetic_energy_final : ℚ
  kinetic_energy_change : ℚ
  coefficient_of_restitution : ℚ
deriving Repr, DecidableEq

/-- The two `ValueError`s the engine can raise, distinguished by their
message in the source (`"Masses must be positive"` versus
`"Coefficient of restitution must be between 0 and 1"`). -/
inductive CollisionError where
  | invalidMass
  | invalidRestitution
deriving Repr, DecidableEq

/-- `calculate_momentum`: p = m·v. -/
def calculate_momentum (mass velocity : ℚ) : ℚ :=
  mass * velocity

/-- `calculate_kinetic_energy`: KE = ½·m·v². -/
def calculate_kinetic_energy (mass velocity : ℚ) : ℚ :=
  1/2 * mass * velocity ^ 2

/-- `create_particle_state`: builds a `ParticleState` with derived
momentum and kinetic energy. -/
def create_particle_state (mass velocity : ℚ) : ParticleState :=
  { mass := mass
    velocity := velocity
    momentum := calculate_momentum mass velocity
    kinetic_energy := calculate_kinetic_energy mass velocity }

/-- `calculate_collision_velocities` with its restitution argument explicit.
Validates `m1 <= 0 or m2 <= 0` first, then `not (0 <= e <= 1)`, then applies
the general restitution formulas from lines 120–128 of the source. -/
def calculate_collision_velocities (m1 v1 m2 v2 e : ℚ) :
    Except CollisionError (ℚ × ℚ) :=
  if m1 ≤ 0 ∨ m2 ≤ 0 then
    .error .invalidMass
  else if ¬ (0 ≤ e ∧ e ≤ 1) then
    .error .invalidRestitution
  else
    let total_mass := m1 + m2
    let momentum_sum := m1 * v1 + m2 * v2
    let relative_velocity := v1 - v2
    .ok ((momentum_sum - m2 * e * relative_velocity) / total_mass,
         (momentum_sum + m1 * e * relative_velocity) / total_mass)

/-- The Python signature defaults `e` to `1.0`; this is the call form with
the restitution argument omitted. -/
def calculate_collision_velocities_default (m1 v1 m2 v2 : ℚ) :
    Except CollisionError (ℚ × ℚ) :=
  calculate_collision_velocities m1 v1 m2 v2 1

/-- `simulate_collision` with its restitution argument explicit: builds the
initial states and totals, computes the final velocities (propagating any
validation error), builds the final states and totals, and packages the
`CollisionResult`. -/
def simulate_collision (m1 v1 m2 v2 e : ℚ) :
    Except CollisionError CollisionResult :=
  let particle1_initial := create_particle_state m1 v1
  let particle2_initial := create_particle_state m2 v2
  let total_momentum_initial := particle1_initial.momentum + particle2_initial.momentum
  let total_ke_initial := particle1_initial.kinetic_energy + particle2_initial.kinetic_energy
  match calculate_collision_velocities m1 v1 m2 v2 e with
  | .error err => .error err
  | .ok (v1_final, v2_final) =>
    let particle1_final := create_particle_state m1 v1_final
    let particle2_final := create_particle_state m2 v2_final
    let total_momentum_final := particle1_final.momentum + particle2_final.momentum
    let total_ke_final := particle1_final.kinetic_energy + particle2_final.kinetic_energy
    let ke_change := total_ke_final - total_ke_initial
    .ok { particle1_initial := particle1_initial
          particle2_initial := particle2_initial
          particle1_final := particle1_final
          particle2_final := particle2_final
          total_momentum_initial := total_momentum_initial
          total_momentum_final := total_momentum_final
          total_kinetic_energy_initial := total_ke_initial
          total_kinetic_energy_final := total_ke_final
          kinetic_energy_change := ke_change
          coefficient_of_restitution := e }

/-- The call form of `simulate_collision` with its defaulted restitution
argument (`e = 1.0`) omitted. -/
def simulate_collision_default (m1 v1 m2 v2 : ℚ) :
    Except CollisionError CollisionResult :=
  simulate_collision m1 v1 m2 v2 1

/-- The derived-field invariant of §3 of the spec: momentum and kinetic
energy of a `ParticleState` match the formulas for its stored mass and
velocity. -/
def derived_fields_ok (s : ParticleState) : Prop :=
  s.momentum = s.mass * s.velocity ∧
    s.kinetic_energy = 1/2 * s.mass * s.velocity ^ 2

/-! ### Helper lemmas -/

/-- On valid inputs, `calculate_collision_velocities` returns the pair of
restitution-formula velocities. -/
lemma calc_velocities_ok (m1 v1 m2 v2 e : ℚ)
    (hm1 : 0 < m1) (hm2 : 0 < m2) (he0 : 0 ≤ e) (he1 : e ≤ 1) :
    calculate_collision_velocities m1 v1 m2 v2 e =
      .ok ((m1 * v1 + m2 * v2 - m2 * e * (v1 - v2)) / (m1 + m2),
           (m1 * v1 + m2 * v2 + m1 * e * (v1 - v2)) / (m1 + m2)) := by
  unfold calculate_collision_velocities
  rw [if_neg (by push_neg; exact ⟨hm1, hm2⟩), if_neg (not_not_intro ⟨he0, he1⟩)]

/-- On valid inputs, `simulate_collision` returns the fully evaluated
`CollisionResult` record. -/
lemma simulate_ok (m1 v1 m2 v2 e : ℚ)
    (hm1 : 0 < m1) (hm2 : 0 < m2) (he0 : 0 ≤ e) (he1 : e ≤ 1) :
    simulate_collision m1 v1 m2 v2 e =
      .ok { particle1_initial := create_particle_state m1 v1
            particle2_initial := create_particle_state m2 v2
            particle1_final :=
              create_particle_state m1
                ((m1 * v1 + m2 * v2 - m2 * e * (v1 - v2)) / (m1 + m2))
            particle2_final :=
              create_particle_state m2
                ((m1 * v1 + m2 * v2 + m1 * e * (v1 - v2)) / (m1 + m2))
            total_momentum_initial := m1 * v1 + m2 * v2
            total_momentum_final :=
              m1 * ((m1 * v1 + m2 * v2 - m2 * e * (v1 - v2)) / (m1 + m2)) +
                m2 * ((m1 * v1 + m2 * v2 + m1 * e * (v1 - v2)) / (m1 + m2))
            total_kinetic_energy_initial :=
              1/2 * m1 * v1 ^ 2 + 1/2 * m2 * v2 ^ 2
            total_kinetic_energy_final :=
              1/2 * m1 * ((m1 * v1 + m2 * v2 - m2 * e * (v1 - v2)) / (m1 + m2)) ^ 2 +
                1/2 * m2 * ((m1 * v1 + m2 * v2 + m1 * e * (v1 - v2)) / (m1 + m2)) ^ 2
            kinetic_energy_change :=
              (1/2 * m1 * ((m1 * v1 + m2 * v2 - m2 * e * (v1 - v2)) / (m1 + m2)) ^ 2 +
                1/2 * m2 * ((m1 * v1 + m2 * v2 + m1 * e * (v1 - v2)) / (m1 + m2)) ^ 2) -
                (1/2 * m1 * v1 ^ 2 + 1/2 * m2 * v2 ^ 2)
            coefficient_of_restitution := e } := by
  unfold simulate_collision
  rw [calc_velocities_ok m1 v1 m2 v2 e hm1 hm2 he0 he1]
  rfl

/-- Closed form of the kinetic-energy change produced by the restitution
formulas: ΔKE = −m1·m2·(1 − e²)·(v1 − v2)² / (2·(m1 + m2)). -/
lemma ke_change_closed_form (m1 v1 m2 v2 e : ℚ) (hM : m1 + m2 ≠ 0) :
    (1/2 * m1 * ((m1 * v1 + m2 * v2 - m2 * e * (v1 - v2)) / (m1 + m2)) ^ 2 +
      1/2 * m2 * ((m1 * v1 + m2 * v2 + m1 * e * (v1 - v2)) / (m1 + m2)) ^ 2) -
      (1/2 * m1 * v1 ^ 2 + 1/2 * m2 * v2 ^ 2) =
      -(m1 * m2 * (1 - e ^ 2) * (v1 - v2) ^ 2) / (2 * (m1 + m2)) := by
  field_simp
  ring

/-- The restitution formulas conserve total momentum identically. -/
lemma momentum_conserved_form (m1 v1 m2 v2 e : ℚ) (hM : m1 + m2 ≠ 0) :
    m1 * ((m1 * v1 + m2 * v2 - m2 * e * (v1 - v2)) / (m1 + m2)) +
      m2 * ((m1 * v1 + m2 * v2 + m1 * e * (v1 - v2)) / (m1 + m2)) =
      m1 * v1 + m2 * v2 := by
  field_simp
  ring

/-- On valid inputs, the `kinetic_energy_change` field of the result equals
the closed form −m1·m2·(1 − e²)·(v1 − v2)² / (2·(m1 + m2)). -/
lemma ke_change_field (m1 v1 m2 v2 e : ℚ)
    (hm1 : 0 < m1) (hm2 : 0 < m2) (he0 : 0 ≤ e) (he1 : e ≤ 1) :
    ∀ r : CollisionResult, simulate_collision m1 v1 m2 v2 e = .ok r →
      r.kinetic_energy_change =
        -(m1 * m2 * (1 - e ^ 2) * (v1 - v2) ^ 2) / (2 * (m1 + m2)) := by
  intro r h
  rw [simulate_ok m1 v1 m2 v2 e hm1 hm2 he0 he1] at h
  injection h with h
  subst h
  exact ke_change_closed_form m1 v1 m2 v2 e (by positivity)

/-- Sign analysis of the kinetic-energy change closed form: it is never
positive, and vanishes exactly when e = 1 or the velocities coincide. -/
lemma ke_sign (m1 v1 m2 v2 e : ℚ)
    (hm1 : 0 < m1) (hm2 : 0 < m2) (he0 : 0 ≤ e) (he1 : e ≤ 1) :
    -(m1 * m2 * (1 - e ^ 2) * (v1 - v2) ^ 2) / (2 * (m1 + m2)) ≤ 0 ∧
    (-(m1 * m2 * (1 - e ^ 2) * (v1 - v2) ^ 2) / (2 * (m1 + m2)) = 0 ↔
      e = 1 ∨ v1 = v2) := by
  have hD : (0:ℚ) < 2 * (m1 + m2) := by positivity
  have h1e : (0:ℚ) ≤ 1 - e ^ 2 := by nlinarith
  have hN : (0:ℚ) ≤ m1 * m2 * (1 - e ^ 2) * (v1 - v2) ^ 2 :=
    mul_nonneg (mul_nonneg (mul_nonneg hm1.le hm2.le) h1e) (sq_nonneg _)
  constructor
  · exact div_nonpos_of_nonpos_of_nonneg (neg_nonpos.mpr hN) hD.le
  · rw [div_eq_zero_iff]
    simp only [hD.ne', or_false, neg_eq_zero]
    rw [mul_eq_zero, mul_eq_zero, mul_eq_zero]
    constructor
    · rintro ((⟨h | h⟩ | h) | h)
      · exact absurd h hm1.ne'
      · exact absurd h hm2.ne'
      · have he2 : (e - 1) * (e + 1) = 0 := by nlinarith
        rcases mul_eq_zero.mp he2 with h1 | h1
        · exact Or.inl (by linarith)
        · exact absurd h1 (by intro hc; linarith)
      · exact Or.inr (sub_eq_zero.mp (sq_eq_zero_iff.mp h))
    · rintro (rfl | hv)
      · left; right; norm_num
      · right; rw [sub_eq_zero.mpr hv]; norm_num

/-- Strict sign: with 0 ≤ e < 1 and distinct velocities, the kinetic-energy
change closed form is strictly negative. -/
lemma ke_sign_strict (m1 v1 m2 v2 e : ℚ)
    (hm1 : 0 < m1) (hm2 : 0 < m2) (he0 : 0 ≤ e) (he1 : e < 1) (hv : v1 ≠ v2) :
    -(m1 * m2 * (1 - e ^ 2) * (v1 - v2) ^ 2) / (2 * (m1 + m2)) < 0 := by
  have hD : (0:ℚ) < 2 * (m1 + m2) := by positivity
  have h1e : (0:ℚ) < 1 - e ^ 2 := by nlinarith
  have hsq : (0:ℚ) < (v1 - v2) ^ 2 :=
    (sq_nonneg _).lt_of_ne (Ne.symm (pow_ne_zero 2 (sub_ne_zero.mpr hv)))
  have hN : (0:ℚ) < m1 * m2 * (1 - e ^ 2) * (v1 - v2) ^ 2 :=
    mul_pos (mul_pos (mul_pos hm1 hm2) h1e) hsq
  exact div_neg_of_neg_of_pos (neg_lt_zero.mpr hN) hD

/-! ### Claim theorems -/

/-- C1: For all inputs with m1 > 0, m2 > 0 and 0 ≤ e ≤ 1,
`calculate_collision_velocities` returns exactly
v1' = (P − m2·e·Δv) / M and v2' = (P + m1·e·Δv) / M,
where M = m1 + m2, P = m1·v1 + m2·v2 and Δv = v1 − v2. -/
theorem claim_C1 (m1 v1 m2 v2 e : ℚ)
    (hm1 : 0 < m1) (hm2 : 0 < m2) (he0 : 0 ≤ e) (he1 : e ≤ 1) :
    calculate_collision_velocities m1 v1 m2 v2 e =
      .ok (((m1 * v1 + m2 * v2) - m2 * e * (v1 - v2)) / (m1 + m2),
           ((m1 * v1 + m2 * v2) + m1 * e * (v1 - v2)) / (m1 + m2)) := by
  rw [calc_velocities_ok m1 v1 m2 v2 e hm1 hm2 he0 he1]

/-- Witness for C1 at m1 = 1, v1 = 5, m2 = 2, v2 = 3, e = 1/2. -/
theorem claim_C1_witness :
    (0:ℚ) < 1 ∧ (0:ℚ) < 2 ∧ (0:ℚ) ≤ 1/2 ∧ (1/2:ℚ) ≤ 1 ∧
    calculate_collision_velocities 1 5 2 3 (1/2) =
      .ok (((1 * 5 + 2 * 3) - 2 * (1/2) * (5 - 3)) / (1 + 2),
           ((1 * 5 + 2 * 3) + 1 * (1/2) * (5 - 3)) / (1 + 2)) :=
  ⟨by norm_num, by norm_num, by norm_num, by norm_num,
   claim_C1 1 5 2 3 (1/2) (by norm_num) (by norm_num) (by norm_num) (by norm_num)⟩

/-- C2: For every accepted input (m1 > 0, m2 > 0, 0 ≤ e ≤ 1), the
`CollisionResult` returned by `simulate_collision` satisfies
total final momentum = total initial momentum = m1·v1 + m2·v2,
independently of the restitution coefficient. -/
theorem claim_C2 (m1 v1 m2 v2 e : ℚ)
    (hm1 : 0 < m1) (hm2 : 0 < m2) (he0 : 0 ≤ e) (he1 : e ≤ 1) :
    ∀ r : CollisionResult, simulate_collision m1 v1 m2 v2 e = .ok r →
      r.total_momentum_final = r.total_momentum_initial ∧
      r.total_momentum_initial = m1 * v1 + m2 * v2 := by
  intro r h
  rw [simulate_ok m1 v1 m2 v2 e hm1 hm2 he0 he1] at h
  injection h with h
  subst h
  refine ⟨?_, rfl⟩
  exact momentum_conserved_form m1 v1 m2 v2 e (by positivity)

/-- Witness for C2 at m1 = 1, v1 = 5, m2 = 2, v2 = 3, e = 1. -/
theorem claim_C2_witness :
    (0:ℚ) < 1 ∧ (0:ℚ) < 2 ∧ (0:ℚ) ≤ 1 ∧ (1:ℚ) ≤ 1 ∧
    (simulate_collision 1 5 2 3 1).map
      (fun r => r.total_momentum_final) = .ok 11 := by
  refine ⟨by norm_num, by norm_num, by norm_num, by norm_num, ?_⟩
  have hok := simulate_ok 1 5 2 3 1 (by norm_num) (by norm_num) (by norm_num) (by norm_num)
  have hc := claim_C2 1 5 2 3 1 (by norm_num) (by norm_num) (by norm_num) (by norm_num) _ hok
  rw [hok]
  simp only [Except.map, Except.ok.injEq]
  rw [show (11:ℚ) = 1 * 5 + 2 * 3 by norm_num]
  exact hc.1.trans hc.2

/-- C3 counterexample: at m1 = 1, v1 = 0, m2 = 1, v2 = 0, e = 0 (an accepted
input), the kinetic-energy change is 0 although the restitution coefficient
is not 1, refuting "the change is zero if and only if e == 1". -/
theorem claim_C3_counterexample :
    (simulate_collision 1 0 1 0 0).map
      (fun r => r.kinetic_energy_change) = .ok 0 ∧
    (simulate_collision 1 0 1 0 0).map
      (fun r => r.coefficient_of_restitution) = .ok 0 ∧
    (0:ℚ) ≠ 1 := by
  have hok := simulate_ok 1 0 1 0 0 (by norm_num) (by norm_num) (by norm_num) (by norm_num)
  refine ⟨?_, ?_, by norm_num⟩
  · rw [hok]
    simp only [Except.map, Except.ok.injEq]
    norm_num
  · rw [hok]
    simp only [Except.map]

/-- C3 (amended): for every accepted input (m1 > 0, m2 > 0, 0 ≤ e ≤ 1), the
kinetic-energy change reported by `simulate_collision` is ≤ 0, and it equals
0 exactly when e = 1 or v1 = v2. -/
theorem claim_C3 (m1 v1 m2 v2 e : ℚ)
    (hm1 : 0 < m1) (hm2 : 0 < m2) (he0 : 0 ≤ e) (he1 : e ≤ 1) :
    ∀ r : CollisionResult, simulate_collision m1 v1 m2 v2 e = .ok r →
      r.kinetic_energy_change ≤ 0 ∧
      (r.kinetic_energy_change = 0 ↔ e = 1 ∨ v1 = v2) := by
  intro r h
  rw [ke_change_field m1 v1 m2 v2 e hm1 hm2 he0 he1 r h]
  exact ke_sign m1 v1 m2 v2 e hm1 hm2 he0 he1

/-- Witness for C3 at m1 = 1, v1 = 5, m2 = 2, v2 = 3, e = 1: the
kinetic-energy change there is 0. -/
theorem claim_C3_witness :
    (0:ℚ) < 1 ∧ (0:ℚ) < 2 ∧ (0:ℚ) ≤ 1 ∧ (1:ℚ) ≤ 1 ∧
    (simulate_collision 1 5 2 3 1).map
      (fun r => r.kinetic_energy_change) = .ok 0 := by
  refine ⟨by norm_num, by norm_num, by norm_num, by norm_num, ?_⟩
  have hok := simulate_ok 1 5 2 3 1 (by norm_num) (by norm_num) (by norm_num) (by norm_num)
  have hc := claim_C3 1 5 2 3 1 (by norm_num) (by norm_num) (by norm_num) (by norm_num) _ hok
  rw [hok]
  simp only [Except.map, Except.ok.injEq]
  exact hc.2.mpr (Or.inl rfl)

/-- C4: for all accepted inputs with 0 ≤ e < 1, the kinetic-energy change of
`simulate_collision` is strictly negative whenever v1 ≠ v2, and equals 0
when v1 = v2. -/
theorem claim_C4 (m1 v1 m2 v2 e : ℚ)
    (hm1 : 0 < m1) (hm2 : 0 < m2) (he0 : 0 ≤ e) (he1 : e < 1) :
    ∀ r : CollisionResult, simulate_collision m1 v1 m2 v2 e = .ok r →
      (v1 ≠ v2 → r.kinetic_energy_change < 0) ∧
      (v1 = v2 → r.kinetic_energy_change = 0) := by
  intro r h
  rw [ke_change_field m1 v1 m2 v2 e hm1 hm2 he0 he1.le r h]
  constructor
  · exact fun hv => ke_sign_strict m1 v1 m2 v2 e hm1 hm2 he0 he1 hv
  · intro hv
    exact (ke_sign m1 v1 m2 v2 e hm1 hm2 he0 he1.le).2.mpr (Or.inr hv)

/-- Witness for C4 at m1 = 1, v1 = 5, m2 = 2, v2 = 3, e = 1/2: the
velocities differ and the kinetic-energy change is strictly negative. -/
theorem claim_C4_witness :
    (0:ℚ) < 1 ∧ (0:ℚ) < 2 ∧ (0:ℚ) ≤ 1/2 ∧ (1/2:ℚ) < 1 ∧ (5:ℚ) ≠ 3 ∧
    (simulate_collision 1 5 2 3 (1/2)).map
      (fun r => decide (r.kinetic_energy_change < 0)) = .ok true := by
  refine ⟨by norm_num, by norm_num, by norm_num, by norm_num, by norm_num, ?_⟩
  have hok := simulate_ok 1 5 2 3 (1/2) (by norm_num) (by norm_num) (by norm_num) (by norm_num)
  have hc := claim_C4 1 5 2 3 (1/2) (by norm_num) (by norm_num) (by norm_num) (by norm_num) _ hok
  rw [hok]
  simp only [Except.map, Except.ok.injEq, decide_eq_true_eq]
  exact hc.1 (by norm_num)

/-- C5: `calculate_collision_velocities` fails with the invalid-mass error
iff m1 ≤ 0 or m2 ≤ 0; given positive masses it fails with the
invalid-restitution error iff e lies outside [0, 1]; otherwise it returns a
result; and the two concrete calls from the spec fail as stated. -/
theorem claim_C5 (m1 v1 m2 v2 e : ℚ) :
    (calculate_collision_velocities m1 v1 m2 v2 e = .error .invalidMass ↔
      m1 ≤ 0 ∨ m2 ≤ 0) ∧
    (0 < m1 → 0 < m2 →
      (calculate_collision_velocities m1 v1 m2 v2 e = .error .invalidRestitution ↔
        ¬ (0 ≤ e ∧ e ≤ 1))) ∧
    (0 < m1 → 0 < m2 → 0 ≤ e → e ≤ 1 →
      ∃ p, calculate_collision_velocities m1 v1 m2 v2 e = .ok p) ∧
    calculate_collision_velocities (-1) 5 2 3 1 = .error .invalidMass ∧
    calculate_collision_velocities 1 5 2 3 (3/2) = .error .invalidRestitution := by
  refine ⟨?_, ?_, ?_, ?_, ?_⟩
  · unfold calculate_collision_velocities
    split_ifs with h1 h2
    · simp [h1]
    · simp [h1]
    · simp [h1]
  · intro hm1 hm2
    unfold calculate_collision_velocities
    rw [if_neg (by push_neg; exact ⟨hm1, hm2⟩)]
    split_ifs with h2
    · simp [h2]
    · simp [h2]
  · intro hm1 hm2 he0 he1
    exact ⟨_, calc_velocities_ok m1 v1 m2 v2 e hm1 hm2 he0 he1⟩
  · unfold calculate_collision_velocities
    rw [if_pos (Or.inl (by norm_num))]
  · unfold calculate_collision_velocities
    rw [if_neg (by push_neg; norm_num), if_pos (by push_neg; intro h; norm_num)]

/-- Witness for C5 at m1 = 1, m2 = 2, e = 1/2 with v1 = 5, v2 = 3: neither
error case applies and a result is returned. -/
theorem claim_C5_witness :
    ¬ ((1:ℚ) ≤ 0 ∨ (2:ℚ) ≤ 0) ∧
    ∃ p, calculate_collision_velocities 1 5 2 3 (1/2) = .ok p := by
  refine ⟨by norm_num, ?_⟩
  exact (claim_C5 1 5 2 3 (1/2)).2.2.1 (by norm_num) (by norm_num) (by norm_num) (by norm_num)

/-- C6: validation errors of `calculate_collision_velocities` propagate
unchanged through `simulate_collision`, and on any invalid input
`simulate_collision` never returns a `CollisionResult`. -/
theorem claim_C6 (m1 v1 m2 v2 e : ℚ) :
    (∀ err, calculate_collision_velocities m1 v1 m2 v2 e = .error err →
      simulate_collision m1 v1 m2 v2 e = .error err) ∧
    ((m1 ≤ 0 ∨ m2 ≤ 0 ∨ ¬ (0 ≤ e ∧ e ≤ 1)) →
      ∀ r : CollisionResult, simulate_collision m1 v1 m2 v2 e ≠ .ok r) := by
  have hprop : ∀ err, calculate_collision_velocities m1 v1 m2 v2 e = .error err →
      simulate_collision m1 v1 m2 v2 e = .error err := by
    intro err h
    unfold simulate_collision
    rw [h]
  refine ⟨hprop, ?_⟩
  intro hbad r
  have herr : ∃ err, calculate_collision_velocities m1 v1 m2 v2 e = .error err := by
    unfold calculate_collision_velocities
    rcases hbad with h | h | h
    · exact ⟨.invalidMass, by rw [if_pos (Or.inl h)]⟩
    · exact ⟨.invalidMass, by rw [if_pos (Or.inr h)]⟩
    · by_cases hm : m1 ≤ 0 ∨ m2 ≤ 0
      · exact ⟨.invalidMass, by rw [if_pos hm]⟩
      · exact ⟨.invalidRestitution, by rw [if_neg hm, if_pos h]⟩
  obtain ⟨err, he⟩ := herr
  rw [hprop err he]
  simp

/-- Witness for C6 at the invalid input m1 = −1: the mass error propagates
unchanged and no result is returned. -/
theorem claim_C6_witness :
    simulate_collision (-1) 5 2 3 1 = .error .invalidMass ∧
    ((-1:ℚ) ≤ 0 ∨ (2:ℚ) ≤ 0 ∨ ¬ ((0:ℚ) ≤ 1 ∧ (1:ℚ) ≤ 1)) := by
  refine ⟨?_, Or.inl (by norm_num)⟩
  refine (claim_C6 (-1) 5 2 3 1).1 .invalidMass ?_
  unfold calculate_collision_velocities
  rw [if_pos (Or.inl (by norm_num))]

/-- C7: for every accepted input with e = 0,
`calculate_collision_velocities` returns both final velocities equal to
P / M = (m1·v1 + m2·v2) / (m1 + m2). -/
theorem claim_C7 (m1 v1 m2 v2 : ℚ) (hm1 : 0 < m1) (hm2 : 0 < m2) :
    calculate_collision_velocities m1 v1 m2 v2 0 =
      .ok ((m1 * v1 + m2 * v2) / (m1 + m2), (m1 * v1 + m2 * v2) / (m1 + m2)) := by
  rw [calc_velocities_ok m1 v1 m2 v2 0 hm1 hm2 le_rfl zero_le_one]
  norm_num

/-- Witness for C7 at m1 = 3, v1 = 6, m2 = 2, v2 = −4 (the spec's concrete
perfectly-inelastic scenario, both final velocities 2). -/
theorem claim_C7_witness :
    (0:ℚ) < 3 ∧ (0:ℚ) < 2 ∧
    calculate_collision_velocities 3 6 2 (-4) 0 = .ok (2, 2) := by
  refine ⟨by norm_num, by norm_num, ?_⟩
  rw [claim_C7 3 6 2 (-4) (by norm_num) (by norm_num)]
  norm_num

/-- C8: for equal positive masses and e = 1,
`calculate_collision_velocities` returns the swapped initial velocities;
and in the concrete scenario m1 = 1, v1 = 5, m2 = 1, v2 = −5, e = 1 the
simulation yields v1' = −5, v2' = 5, total momentum 0 before and after, and
kinetic-energy change 0. -/
theorem claim_C8 (m v1 v2 : ℚ) (hm : 0 < m) :
    calculate_collision_velocities m v1 m v2 1 = .ok (v2, v1) ∧
    (simulate_collision 1 5 1 (-5) 1).map
      (fun r => (r.particle1_final.velocity, r.particle2_final.velocity,
        r.total_momentum_initial, r.total_momentum_final,
        r.kinetic_energy_change)) = .ok (-5, 5, 0, 0, 0) := by
  constructor
  · rw [calc_velocities_ok m v1 m v2 1 hm hm zero_le_one le_rfl]
    have hM : m + m ≠ 0 := by positivity
    simp only [Except.ok.injEq, Prod.mk.injEq]
    constructor
    · field_simp
      ring
    · field_simp
      ring
  · rw [simulate_ok 1 5 1 (-5) 1 (by norm_num) (by norm_num) (by norm_num) (by norm_num)]
    simp only [Except.map, Except.ok.injEq, Prod.mk.injEq, create_particle_state]
    norm_num

/-- Witness for C8 at m = 1, v1 = 7, v2 = −2. -/
theorem claim_C8_witness :
    (0:ℚ) < 1 ∧
    calculate_collision_velocities 1 7 1 (-2) 1 = .ok (-2, 7) :=
  ⟨by norm_num, (claim_C8 1 7 (-2) (by norm_num)).1⟩

/-- C9: `create_particle_state` always satisfies the derived-field
invariant (momentum = m·v, kinetic energy = ½·m·v²); every state in any
`CollisionResult` returned by `simulate_collision` satisfies it too, and
the final states carry the same masses as the corresponding initial
states. -/
theorem claim_C9 (mass velocity m1 v1 m2 v2 e : ℚ) :
    derived_fields_ok (create_particle_state mass velocity) ∧
    (∀ r : CollisionResult, simulate_collision m1 v1 m2 v2 e = .ok r →
      derived_fields_ok r.particle1_initial ∧ derived_fields_ok r.particle2_initial ∧
      derived_fields_ok r.particle1_final ∧ derived_fields_ok r.particle2_final ∧
      r.particle1_initial.mass = m1 ∧ r.particle2_initial.mass = m2 ∧
      r.particle1_final.mass = m1 ∧ r.particle2_final.mass = m2) := by
  refine ⟨⟨rfl, rfl⟩, ?_⟩
  intro r h
  unfold simulate_collision at h
  cases hc : calculate_collision_velocities m1 v1 m2 v2 e with
  | error err =>
    rw [hc] at h
    exact absurd h (by simp)
  | ok p =>
    obtain ⟨a, b⟩ := p
    rw [hc] at h
    injection h with h
    subst h
    exact ⟨⟨rfl, rfl⟩, ⟨rfl, rfl⟩, ⟨rfl, rfl⟩, ⟨rfl, rfl⟩, rfl, rfl, rfl, rfl⟩

/-- Witness for C9 at mass 2, velocity 3 and the simulation
(1, 5, 2, 3, 1). -/
theorem claim_C9_witness :
    (create_particle_state 2 3).momentum = 2 * 3 ∧
    (create_particle_state 2 3).kinetic_energy = 1/2 * 2 * 3 ^ 2 :=
  ⟨((claim_C9 2 3 1 5 2 3 1).1).1, ((claim_C9 2 3 1 5 2 3 1).1).2⟩

/-- C10: omitting the restitution argument defaults it to 1 (perfectly
elastic), for both `calculate_collision_velocities` and
`simulate_collision`. -/
theorem claim_C10 (m1 v1 m2 v2 : ℚ) :
    calculate_collision_velocities_default m1 v1 m2 v2 =
      calculate_collision_velocities m1 v1 m2 v2 1 ∧
    simulate_collision_default m1 v1 m2 v2 = simulate_collision m1 v1 m2 v2 1 :=
  ⟨rfl, rfl⟩

end CollisionEngine
